import Mathlib

/-!
Verification of the stm32h743-tools peripheral-configuration layer.

The Rust sources under `src/` are shallowly embedded here: the memory-mapped
register file becomes an explicit state `RegState : Reg → Nat` (each register
holding a 32-bit value), volatile accesses become explicit state passing, `u32`
arithmetic is `Nat` with explicit truncation modulo `2^32`, and fallible code
(out-of-bounds array access, i.e. a Rust panic, and busy-waits that may never
terminate) returns `Option`.

The `registers` module of the crate (the register map: addresses and bit
positions) is not part of the given sources; the spec describes it as an
external fixed table of opaque constants.  It is modelled by the inductive
type `Reg` (distinct constructors give distinct addresses) and by named
bit-position constants below.

The crate's `f32` baud-rate computation is embedded as exact IEEE-754
binary32 round-to-nearest-even arithmetic over unnormalised dyadic rationals
(`F32` below), together with `+∞` and NaN (a zero divisor is reachable, since
`setup_usart` never validates the baud rate), with `as u32` casts as
truncation toward zero saturating at `u32::MAX` (and NaN casting to 0).
-/

/-! ## 32-bit machine arithmetic -/

def UINT32 : Nat := 4294967296

/-- Truncation to 32 bits, applied wherever a `u32` value is produced. -/
def wrap (n : Nat) : Nat := n % UINT32

/-- Bitwise complement inside a 32-bit word: Rust `!x` on `u32`. -/
def compl32 (n : Nat) : Nat := (UINT32 - 1) ^^^ wrap n

/-! ## Instance identifier enumerations (from the Rust enums) -/

inductive Timer | Tim2 | Tim3 | Tim4 | Tim5
deriving DecidableEq

inductive USART | USART2 | USART3
deriving DecidableEq

inductive GpioRegister
  | GpioA | GpioB | GpioC | GpioD | GpioE | GpioH | GpioI | GpioJ | GpioK
deriving DecidableEq

/-! ## The register file

Modelled from the spec: the register map is an external "fixed symbolic-name →
address table"; addresses are distinct opaque constants selected by exhaustive
case analysis, never computed.  Distinct constructors model distinct
addresses. -/

inductive Reg
  | APB1LENR
  | AHB4ENR
  | ISER (n : Nat)
  | IPR (n : Nat)
  | PSC (t : Timer)
  | ARR (t : Timer)
  | EGR (t : Timer)
  | DIER (t : Timer)
  | TimCR1 (t : Timer)
  | CNT (t : Timer)
  | SR (t : Timer)
  | MODER (p : GpioRegister)
  | OTYPER (p : GpioRegister)
  | PUPDR (p : GpioRegister)
  | OSPEEDR (p : GpioRegister)
  | AFRL (p : GpioRegister)
  | AFRH (p : GpioRegister)
  | ODR (p : GpioRegister)
  | IDR (p : GpioRegister)
  | UsartCR1 (u : USART)
  | BRR (u : USART)
  | ISR (u : USART)
  | TDR (u : USART)
deriving DecidableEq

/-- The hardware register file: one 32-bit value per register. -/
def RegState : Type := Reg → Nat

/-- A register file with every register at zero (typical reset value). -/
def zeroState : RegState := fun _ => 0

/-- A register file with every register at all-ones. -/
def allOnesState : RegState := fun _ => 4294967295

/-- A register file whose only set bit is bit 0 of `ISER0`. -/
def iserOneState : RegState := fun r => if r = Reg.ISER 0 then 1 else 0

/-- A register file in which timer 2's counter reads 5 and all else is 0. -/
def cnt5State : RegState := fun r => if r = Reg.CNT Timer.Tim2 then 5 else 0

/-! ## Bit-position constants of the register map

Modelled from the spec: the register map supplies fixed symbolic bit
positions (§6 "Register map (external): per instance, a fixed symbolic-name →
(address, bit position[, width]) table").  The concrete numbers below are the
hardware values; no claim depends on them beyond their being fixed and, where
relevant, distinct. -/

namespace registers

def TIM2EN : Nat := 0
def TIM3EN : Nat := 1
def TIM4EN : Nat := 2
def TIM5EN : Nat := 3
def USART2EN : Nat := 17
def USART3EN : Nat := 18

def GPIOAEN : Nat := 0
def GPIOBEN : Nat := 1
def GPIOCEN : Nat := 2
def GPIODEN : Nat := 3
def GPIOEEN : Nat := 4
def GPIOHEN : Nat := 7
def GPIOIEN : Nat := 8
def GPIOJEN : Nat := 9
def GPIOKEN : Nat := 10

/-- Timer event-generation register, update-generation bit. -/
def UG : Nat := 0
/-- Timer interrupt-enable register, update-interrupt-enable bit. -/
def UIE : Nat := 0
/-- Timer control register, counter-enable bit. -/
def CEN : Nat := 0
/-- Timer status register, update-interrupt-flag bit. -/
def UIF : Nat := 0

/-- USART control register, port-enable bit. -/
def UE : Nat := 0
/-- USART control register, transmit-enable bit. -/
def TE : Nat := 3
/-- USART control register, transmit-interrupt-enable bit. -/
def TXEIE : Nat := 7
/-- USART status register, transmit-empty bit. -/
def TXE : Nat := 7
/-- USART baud-rate register, mantissa (high) sub-field position. -/
def BRR_4_15 : Nat := 4
/-- USART baud-rate register, fraction (low) sub-field position. -/
def BRR_0_3 : Nat := 0

/-- NVIC interrupt line IDs of the four timers. -/
def TIM2_IRQ : Nat := 28
def TIM3_IRQ : Nat := 29
def TIM4_IRQ : Nat := 30
def TIM5_IRQ : Nat := 50

end registers

/-! ## Field Access Primitive (src/register_tools.rs) -/

namespace register_tools

/-- `write_register`: store a value into a register (truncated to 32 bits). -/
def write_register (s : RegState) (r : Reg) (value : Nat) : RegState :=
  fun r' => if r' = r then wrap value else s r'

/-- `read_register`. -/
def read_register (s : RegState) (r : Reg) : Nat := s r

/-- `set_bit`: `register | (1 << field)`. -/
def set_bit (s : RegState) (r : Reg) (field : Nat) : RegState :=
  write_register s r (s r ||| (1 <<< field))

/-- `clear_bit`: `register & !(1 << field)`. -/
def clear_bit (s : RegState) (r : Reg) (field : Nat) : RegState :=
  write_register s r (s r &&& compl32 (1 <<< field))

/-- `get_bit`: `(register >> field) & 1`. -/
def get_bit (s : RegState) (r : Reg) (field : Nat) : Nat :=
  (s r >>> field) &&& 1

/-- `toggle_bit`: `register ^ (1 << field)`. -/
def toggle_bit (s : RegState) (r : Reg) (field : Nat) : RegState :=
  write_register s r (s r ^^^ (1 <<< field))

/-- `write_bits`: `(register & !(mask << field)) | (value << field)`.
Note the source does not mask `value` by `mask` before inserting it. -/
def write_bits (s : RegState) (r : Reg) (field value mask : Nat) : RegState :=
  write_register s r ((s r &&& compl32 (mask <<< field)) ||| wrap (value <<< field))

/-- `set_bit_in_array`: selects register `id/32`, bit `id%32`; the Rust
`assert!` on the index (a panic) is modelled by `none`. -/
def set_bit_in_array (id : Nat) (registers : List Reg) (s : RegState) :
    Option RegState :=
  let register_index := id / 32
  let field := id % 32
  match registers.get? register_index with
  | some r => some (set_bit s r field)
  | none => none

/-- `clear_bit_in_array`. -/
def clear_bit_in_array (id : Nat) (registers : List Reg) (s : RegState) :
    Option RegState :=
  let register_index := id / 32
  let field := id % 32
  match registers.get? register_index with
  | some r => some (clear_bit s r field)
  | none => none

/-- `enable_interrupt` (register_tools level). -/
def enable_interrupt (id : Nat) (interrupt_registers : List Reg) (s : RegState) :
    Option RegState :=
  set_bit_in_array id interrupt_registers s

/-- `disable_interrupt` (register_tools level). -/
def disable_interrupt (id : Nat) (interrupt_registers : List Reg) (s : RegState) :
    Option RegState :=
  clear_bit_in_array id interrupt_registers s

end register_tools

/-! ## Interrupt Controller Driver (src/interrupts.rs) -/

namespace interrupts

/-- `NVIC_ISER_REGISTERS`: the five interrupt set-enable registers. -/
def NVIC_ISER_REGISTERS : List Reg :=
  [Reg.ISER 0, Reg.ISER 1, Reg.ISER 2, Reg.ISER 3, Reg.ISER 4]

/-- `NVIC_IPR_REGISTERS`: the forty interrupt priority registers. -/
def NVIC_IPR_REGISTERS : List Reg :=
  [Reg.IPR 0, Reg.IPR 1, Reg.IPR 2, Reg.IPR 3, Reg.IPR 4, Reg.IPR 5,
   Reg.IPR 6, Reg.IPR 7, Reg.IPR 8, Reg.IPR 9, Reg.IPR 10, Reg.IPR 11,
   Reg.IPR 12, Reg.IPR 13, Reg.IPR 14, Reg.IPR 15, Reg.IPR 16, Reg.IPR 17,
   Reg.IPR 18, Reg.IPR 19, Reg.IPR 20, Reg.IPR 21, Reg.IPR 22, Reg.IPR 23,
   Reg.IPR 24, Reg.IPR 25, Reg.IPR 26, Reg.IPR 27, Reg.IPR 28, Reg.IPR 29,
   Reg.IPR 30, Reg.IPR 31, Reg.IPR 32, Reg.IPR 33, Reg.IPR 34, Reg.IPR 35,
   Reg.IPR 36, Reg.IPR 37, Reg.IPR 38, Reg.IPR 39]

inductive IRQLevel
  | Level0 | Level1 | Level2 | Level3 | Level4 | Level5 | Level6 | Level7
  | Level8 | Level9 | Level10 | Level11 | Level12 | Level13 | Level14 | Level15
deriving DecidableEq

/-- The `repr(u8)` discriminant of an `IRQLevel`. -/
def IRQLevel.toNat : IRQLevel → Nat
  | .Level0 => 0x00 | .Level1 => 0x01 | .Level2 => 0x02 | .Level3 => 0x03
  | .Level4 => 0x04 | .Level5 => 0x05 | .Level6 => 0x06 | .Level7 => 0x07
  | .Level8 => 0x08 | .Level9 => 0x09 | .Level10 => 0x0A | .Level11 => 0x0B
  | .Level12 => 0x0C | .Level13 => 0x0D | .Level14 => 0x0E | .Level15 => 0x0F

/-- `enable_interrupt` (interrupts module). -/
def enable_interrupt (interrupt : Nat) (s : RegState) : Option RegState :=
  register_tools.enable_interrupt interrupt NVIC_ISER_REGISTERS s

/-- `disable_interrupt` (interrupts module). -/
def disable_interrupt (interrupt : Nat) (s : RegState) : Option RegState :=
  register_tools.disable_interrupt interrupt NVIC_ISER_REGISTERS s

/-- `set_irq_level`: register index `irq_id / 4`, bit offset `(irq_id % 4) * 4`
(as in the source), level shifted left by 4 as a `u8` (hence the `% 256`);
out-of-bounds indexing (a Rust panic) is modelled by `none`. -/
def set_irq_level (irq_id : Nat) (level : IRQLevel) (s : RegState) :
    Option RegState :=
  let index := irq_id / 4
  let field := (irq_id % 4) * 4
  let lvl := (level.toNat <<< 4) % 256
  match NVIC_IPR_REGISTERS.get? index with
  | some r => some (register_tools.write_bits s r field lvl 0xFF)
  | none => none

end interrupts

/-! ## GPIO Pin Driver (src/gpio.rs) -/

inductive GpioPin
  | P0 | P1 | P2 | P3 | P4 | P5 | P6 | P7
  | P8 | P9 | P10 | P11 | P12 | P13 | P14 | P15
deriving DecidableEq

/-- The discriminant of a `GpioPin` (`self.pin as u8`). -/
def GpioPin.toNat : GpioPin → Nat
  | .P0 => 0 | .P1 => 1 | .P2 => 2 | .P3 => 3
  | .P4 => 4 | .P5 => 5 | .P6 => 6 | .P7 => 7
  | .P8 => 8 | .P9 => 9 | .P10 => 10 | .P11 => 11
  | .P12 => 12 | .P13 => 13 | .P14 => 14 | .P15 => 15

inductive GpioMode | Input | Output | Alternate | Analog
deriving DecidableEq

def GpioMode.toNat : GpioMode → Nat
  | .Input => 0 | .Output => 1 | .Alternate => 2 | .Analog => 3

inductive GpioPull | NoPull | PullDown | PullUp
deriving DecidableEq

def GpioPull.toNat : GpioPull → Nat
  | .NoPull => 0 | .PullDown => 1 | .PullUp => 2

inductive GpioOutputMode | PushPull | OpenDrain
deriving DecidableEq

inductive GpioSpeed | LowSpeed | MediumSpeed | HighSpeed | VeryHighSpeed
deriving DecidableEq

inductive GpioAlternate
  | AF0 | AF1 | AF2 | AF3 | AF4 | AF5 | AF6 | AF7
  | AF8 | AF9 | AF10 | AF11 | AF12 | AF13 | AF14 | AF15
deriving DecidableEq

def GpioAlternate.toNat : GpioAlternate → Nat
  | .AF0 => 0 | .AF1 => 1 | .AF2 => 2 | .AF3 => 3
  | .AF4 => 4 | .AF5 => 5 | .AF6 => 6 | .AF7 => 7
  | .AF8 => 8 | .AF9 => 9 | .AF10 => 10 | .AF11 => 11
  | .AF12 => 12 | .AF13 => 13 | .AF14 => 14 | .AF15 => 15

structure Gpio where
  register : GpioRegister
  pin : GpioPin
  mode : GpioMode
  output_mode : GpioOutputMode
  pull : GpioPull
  speed : GpioSpeed
  alternate : GpioAlternate
deriving DecidableEq

/-- `Gpio::new()`. -/
def Gpio.new : Gpio :=
  { register := GpioRegister.GpioA
    pin := GpioPin.P0
    mode := GpioMode.Input
    output_mode := GpioOutputMode.PushPull
    pull := GpioPull.NoPull
    speed := GpioSpeed.LowSpeed
    alternate := GpioAlternate.AF0 }

/-- The AHB4ENR clock-enable bit of a GPIO port. -/
def ahb4enr_gpio_field : GpioRegister → Nat
  | .GpioA => registers.GPIOAEN
  | .GpioB => registers.GPIOBEN
  | .GpioC => registers.GPIOCEN
  | .GpioD => registers.GPIODEN
  | .GpioE => registers.GPIOEEN
  | .GpioH => registers.GPIOHEN
  | .GpioI => registers.GPIOIEN
  | .GpioJ => registers.GPIOJEN
  | .GpioK => registers.GPIOKEN

/-- `Gpio::setup()`: clock enable, then MODER (`pin*2`), OTYPER (`pin`),
PUPDR (the source writes at `pin`, not `pin*2`), and — only in Alternate
mode — AFRL/AFRH at `(pin % 8) * 4`.  The descriptor's `speed` field is
never consulted and no speed register is written. -/
def Gpio.setup (g : Gpio) (s : RegState) : RegState :=
  let s := register_tools.set_bit s Reg.AHB4ENR (ahb4enr_gpio_field g.register)
  let s := register_tools.write_bits s (Reg.MODER g.register)
    (g.pin.toNat * 2) g.mode.toNat 3
  let s := if g.output_mode = GpioOutputMode.PushPull then
      register_tools.clear_bit s (Reg.OTYPER g.register) g.pin.toNat
    else
      register_tools.set_bit s (Reg.OTYPER g.register) g.pin.toNat
  let s := register_tools.write_bits s (Reg.PUPDR g.register)
    g.pin.toNat g.pull.toNat 3
  if g.mode = GpioMode.Alternate then
    let afr := if g.pin.toNat < 8 then Reg.AFRL g.register else Reg.AFRH g.register
    register_tools.write_bits s afr ((g.pin.toNat % 8) * 4) g.alternate.toNat 15
  else s

/-! ## Timer Driver (src/timers.rs) -/

inductive TimerError
  | InvalidClockSpeed (v : Nat)
  | InvalidInterval (v : Nat)
deriving DecidableEq

namespace timers

def get_cr1_control_register (timer : Timer) : Reg := Reg.TimCR1 timer

def get_dier_interrupt_register (timer : Timer) : Reg := Reg.DIER timer

def get_egr_event_generator_register (timer : Timer) : Reg := Reg.EGR timer

def get_nvic_interrupt_id : Timer → Nat
  | .Tim2 => registers.TIM2_IRQ
  | .Tim3 => registers.TIM3_IRQ
  | .Tim4 => registers.TIM4_IRQ
  | .Tim5 => registers.TIM5_IRQ

/-- `setup_cyclical_timer`. Validation first; then the ordered register
sequence.  `(clock_frequency / 1_000_000) - 1` is `u32` subtraction, so the
borrow case (`clock_frequency < 1_000_000`, which wraps in a release build)
is modelled by adding `2^32 - 1` and truncating.  A panic inside the NVIC
array access would surface as `none`. -/
def setup_cyclical_timer (timer : Timer) (clock_frequency : Nat)
    (interval_ms : Nat) (s : RegState) :
    Option (Except TimerError Unit × RegState) :=
  if clock_frequency = 0 then
    some (Except.error (TimerError.InvalidClockSpeed clock_frequency), s)
  else if interval_ms = 0 then
    some (Except.error (TimerError.InvalidInterval interval_ms), s)
  else
    let prescaler : Nat := wrap (clock_frequency / 1000000 + (UINT32 - 1))
    let auto_reload : Nat := interval_ms * 1000 - 1
    let apb1lenr_clock_field := match timer with
      | .Tim2 => registers.TIM2EN
      | .Tim3 => registers.TIM3EN
      | .Tim4 => registers.TIM4EN
      | .Tim5 => registers.TIM5EN
    let s := register_tools.set_bit s Reg.APB1LENR apb1lenr_clock_field
    let s := register_tools.write_register s (Reg.PSC timer) prescaler
    let s := register_tools.write_register s (Reg.ARR timer) auto_reload
    let s := register_tools.set_bit s (get_egr_event_generator_register timer)
      registers.UG
    let s := register_tools.set_bit s (get_dier_interrupt_register timer)
      registers.UIE
    match interrupts.enable_interrupt (get_nvic_interrupt_id timer) s with
    | none => none
    | some s2 =>
      let s3 := register_tools.set_bit s2 (get_cr1_control_register timer)
        registers.CEN
      some (Except.ok (), s3)

def setup_cyclical_timer2 (clock_frequency interval_ms : Nat) (s : RegState) :=
  setup_cyclical_timer Timer.Tim2 clock_frequency interval_ms s

def setup_cyclical_timer3 (clock_frequency interval_ms : Nat) (s : RegState) :=
  setup_cyclical_timer Timer.Tim3 clock_frequency interval_ms s

def setup_cyclical_timer4 (clock_frequency interval_ms : Nat) (s : RegState) :=
  setup_cyclical_timer Timer.Tim4 clock_frequency interval_ms s

def setup_cyclical_timer5 (clock_frequency interval_ms : Nat) (s : RegState) :=
  setup_cyclical_timer Timer.Tim5 clock_frequency interval_ms s

/-- `get_now_us`: reads the counter and — as the source really does —
multiplies by 1000 ("Convert µs → ns" in its own comment). -/
def get_now_us (timer : Timer) (s : RegState) : Nat :=
  let current_us := register_tools.read_register s (Reg.CNT timer)
  current_us * 1000

/-- `get_now_ns`: `get_now_us * 1000`. -/
def get_now_ns (timer : Timer) (s : RegState) : Nat :=
  get_now_us timer s * 1000

def get_timer2_now_us (s : RegState) : Nat := get_now_us Timer.Tim2 s
def get_timer3_now_us (s : RegState) : Nat := get_now_us Timer.Tim3 s
def get_timer4_now_us (s : RegState) : Nat := get_now_us Timer.Tim4 s
def get_timer5_now_us (s : RegState) : Nat := get_now_us Timer.Tim5 s
def get_timer2_now_ns (s : RegState) : Nat := get_now_ns Timer.Tim2 s
def get_timer3_now_ns (s : RegState) : Nat := get_now_ns Timer.Tim3 s
def get_timer4_now_ns (s : RegState) : Nat := get_now_ns Timer.Tim4 s
def get_timer5_now_ns (s : RegState) : Nat := get_now_ns Timer.Tim5 s

end timers

/-! ## IEEE-754 binary32 model (for the baud-rate computation) -/

/-- Fuel-bounded binary logarithm; `ilog2` below supplies enough fuel for
every value occurring here (all below `2^128`). -/
def log2fuel : Nat → Nat → Nat
  | 0, _ => 0
  | fuel + 1, n => if n < 2 then 0 else log2fuel fuel (n / 2) + 1

def ilog2 (n : Nat) : Nat := log2fuel 128 n

/-- A nonnegative IEEE-754 binary32 value: a finite magnitude kept as an
unnormalised dyadic value `sig * 2 ^ exp` with `sig ≤ 2^24`, or `+∞`, or NaN.
`+∞` and NaN are reachable (`setup_usart` never validates the baud rate, so
the divisor can be zero: `x/0 = +∞` for `x ≠ 0` and `0/0 = NaN`, as in
IEEE 754); negative values never arise on the embedded paths. -/
inductive F32
  | finite (sig : Nat) (exp : Int)
  | inf
  | nan

/-- Round the exact dyadic value `m * 2^e` to 24 significant bits,
ties-to-even (the quotients arising here stay far below the `f32` overflow
threshold, so the result is finite). -/
def roundDyadic (m : Nat) (e : Int) : F32 :=
  if m = 0 then .finite 0 0
  else
    let L := ilog2 m
    if L ≤ 23 then .finite m e
    else
      let sh := L - 23
      let q := m / 2 ^ sh
      let r := m % 2 ^ sh
      let half := 2 ^ (sh - 1)
      let q' := if r < half then q
                else if half < r then q + 1
                else if q % 2 = 0 then q else q + 1
      .finite q' (e + sh)

/-- `n as f32` for a nonnegative integer: round to nearest even. -/
def F32.ofNat (n : Nat) : F32 := roundDyadic n 0

/-- `f32` division.  On finite nonzero operands it is correctly rounded
(round to nearest, ties to even): 48 guard bits plus a sticky remainder give
the exact rounding decision.  A zero divisor gives `+∞` (or NaN for `0/0`)
and NaN propagates, as in IEEE 754. -/
def F32.div : F32 → F32 → F32
  | .nan, _ => .nan
  | _, .nan => .nan
  | .inf, .inf => .nan
  | .inf, .finite _ _ => .inf
  | .finite _ _, .inf => .finite 0 0
  | .finite sa ea, .finite sb eb =>
    if sb = 0 then (if sa = 0 then .nan else .inf)
    else if sa = 0 then .finite 0 0
    else
      let Q := (sa * 2 ^ 48) / sb
      let R := (sa * 2 ^ 48) % sb
      let L := ilog2 Q
      let sh := L - 23
      let q := Q / 2 ^ sh
      let r := Q % 2 ^ sh
      let half := 2 ^ (sh - 1)
      let q' := if r < half then q
                else if half < r then q + 1
                else if R ≠ 0 then q + 1
                else if q % 2 = 0 then q else q + 1
      .finite q' (ea - eb - 48 + sh)

/-- `f32` subtraction.  On finite operands with `a ≥ b ≥ 0` (the only finite
case that occurs: the subtrahend is the truncated-and-reconverted minuend,
which never exceeds it) the exact aligned difference is rounded to nearest
even; `∞ - finite = ∞` and NaN propagates. -/
def F32.sub : F32 → F32 → F32
  | .nan, _ => .nan
  | _, .nan => .nan
  | .inf, .finite _ _ => .inf
  | .inf, .inf => .nan
  | .finite _ _, .inf => .finite 0 0
  | .finite sa ea, .finite sb eb =>
    let e := min ea eb
    let A := sa * 2 ^ (ea - e).toNat
    let B := sb * 2 ^ (eb - e).toNat
    roundDyadic (A - B) e

/-- Multiplication by `2^k` (`* 16.0` in the source): exact in `f32`;
`∞` and NaN are preserved. -/
def F32.mulPow2 : F32 → Nat → F32
  | .finite s e, k => .finite s (e + k)
  | .inf, _ => .inf
  | .nan, _ => .nan

/-- Rust `as u32` on a nonnegative `f32`: truncate toward zero, saturating at
`u32::MAX`; `+∞` saturates to `u32::MAX` and NaN casts to 0. -/
def F32.toU32 : F32 → Nat
  | .finite s e =>
    let v := if 0 ≤ e then s * 2 ^ e.toNat else s / 2 ^ (-e).toNat
    min v (UINT32 - 1)
  | .inf => UINT32 - 1
  | .nan => 0

/-! ## Serial Driver (src/usart.rs) -/

namespace usart

def get_cr_usart_control_register (u : USART) : Reg := Reg.UsartCR1 u

def get_apb1lenr_usart_clock_enable_field : USART → Nat
  | .USART2 => registers.USART2EN
  | .USART3 => registers.USART3EN

/-- The fixed TX pin descriptor built inside `setup_usart`. -/
def usart_tx_gpio : USART → Gpio
  | .USART2 =>
    { Gpio.new with
      register := GpioRegister.GpioA
      pin := GpioPin.P2
      mode := GpioMode.Alternate
      speed := GpioSpeed.HighSpeed
      alternate := GpioAlternate.AF7 }
  | .USART3 =>
    { Gpio.new with
      register := GpioRegister.GpioD
      pin := GpioPin.P8
      mode := GpioMode.Alternate
      speed := GpioSpeed.HighSpeed
      alternate := GpioAlternate.AF7 }

/-- The fixed RX pin descriptor built inside `setup_usart`. -/
def usart_rx_gpio : USART → Gpio
  | .USART2 =>
    { Gpio.new with
      register := GpioRegister.GpioA
      pin := GpioPin.P3
      mode := GpioMode.Alternate
      speed := GpioSpeed.HighSpeed
      alternate := GpioAlternate.AF7 }
  | .USART3 =>
    { Gpio.new with
      register := GpioRegister.GpioD
      pin := GpioPin.P9
      mode := GpioMode.Alternate
      speed := GpioSpeed.HighSpeed
      alternate := GpioAlternate.AF7 }

/-- The mantissa written into the baud-rate register:
`usartdiv = clock as f32 / ((baud << 4) as f32)` then `usartdiv as u32`. -/
def usart_brr_mantissa (clock_speed baud_rate : Nat) : Nat :=
  let usartdiv := F32.div (F32.ofNat clock_speed) (F32.ofNat (wrap (baud_rate <<< 4)))
  usartdiv.toU32

/-- The fraction written into the baud-rate register:
`((usartdiv - mantissa as f32) * 16.0) as u32` — a truncation. -/
def usart_brr_fraction (clock_speed baud_rate : Nat) : Nat :=
  let usartdiv := F32.div (F32.ofNat clock_speed) (F32.ofNat (wrap (baud_rate <<< 4)))
  let mantissa := usartdiv.toU32
  (F32.mulPow2 (F32.sub usartdiv (F32.ofNat mantissa)) 4).toU32

/-- `setup_usart`: disable port, enable USART and GPIO clocks, configure the
fixed TX/RX pins, program the baud divisor, enable transmit and the port. -/
def setup_usart (clock_speed baud_rate : Nat) (u : USART) (s : RegState) :
    RegState :=
  let cr := get_cr_usart_control_register u
  let apb1lenr_usart_clock_enable_field := get_apb1lenr_usart_clock_enable_field u
  let ahb4enr_gpio_clock_enable_field := match u with
    | .USART2 => registers.GPIOAEN
    | .USART3 => registers.GPIODEN
  let s := register_tools.clear_bit s cr registers.UE
  let s := register_tools.set_bit s Reg.APB1LENR apb1lenr_usart_clock_enable_field
  let s := register_tools.set_bit s Reg.AHB4ENR ahb4enr_gpio_clock_enable_field
  let s := (usart_tx_gpio u).setup s
  let s := (usart_rx_gpio u).setup s
  let mantissa := usart_brr_mantissa clock_speed baud_rate
  let fraction := usart_brr_fraction clock_speed baud_rate
  let s := register_tools.write_bits s (Reg.BRR u) registers.BRR_4_15 mantissa 0xfff
  let s := register_tools.write_bits s (Reg.BRR u) registers.BRR_0_3 fraction 0xf
  let s := register_tools.set_bit s cr registers.TE
  register_tools.set_bit s cr registers.UE

def setup_usart2 (clock_speed baud_rate : Nat) (s : RegState) : RegState :=
  setup_usart clock_speed baud_rate USART.USART2 s

def setup_usart3 (clock_speed baud_rate : Nat) (s : RegState) : RegState :=
  setup_usart clock_speed baud_rate USART.USART3 s

/-- `is_usart_setup`: transmit-enable and port-enable both read back set. -/
def is_usart_setup (u : USART) (s : RegState) : Bool :=
  (register_tools.get_bit s (get_cr_usart_control_register u) registers.TE == 1)
    && (register_tools.get_bit s (get_cr_usart_control_register u) registers.UE == 1)

/-- `write_usart_character`: early return (state unchanged) when the port is
not set up; otherwise the busy-wait on the transmit-empty bit either never
terminates (`none` — the register file does not change by itself in this
model) or exits at once, after which the character's code point is written to
the data register. -/
def write_usart_character (character : Char) (u : USART) (s : RegState) :
    Option RegState :=
  if is_usart_setup u s then
    if register_tools.get_bit s (Reg.ISR u) registers.TXE = 0 then
      none
    else
      some (register_tools.write_register s (Reg.TDR u) character.toNat)
  else
    some s

end usart

/-- A pull-up input descriptor on port A pin 2 (exhibits the PUPDR offset). -/
def pullUpP2 : Gpio :=
  { Gpio.new with pin := GpioPin.P2, pull := GpioPull.PullUp }

/-- A register file in which USART2 is set up (`TE` and `UE` set in its
control register) and its transmit-empty status bit is set. -/
def usartReadyState : RegState := fun r =>
  if r = Reg.UsartCR1 USART.USART2 then 9
  else if r = Reg.ISR USART.USART2 then 128
  else 0

/-! # Theorems -/

/-! ## Supporting bit-level lemmas -/

theorem testBit_wrap (n i : Nat) :
    (wrap n).testBit i = (decide (i < 32) && n.testBit i) := by
  have h : UINT32 = 2 ^ 32 := by decide
  rw [wrap, h, Nat.testBit_mod_two_pow]

theorem testBit_compl32 (n i : Nat) (hi : i < 32) :
    (compl32 n).testBit i = !(n.testBit i) := by
  have h : UINT32 - 1 = 2 ^ 32 - 1 := by decide
  rw [compl32, h, Nat.testBit_xor, Nat.testBit_two_pow_sub_one, testBit_wrap]
  simp [hi]

theorem testBit_compl32_high (n i : Nat) (hi : 32 ≤ i) :
    (compl32 n).testBit i = false := by
  have h : UINT32 - 1 = 2 ^ 32 - 1 := by decide
  rw [compl32, h, Nat.testBit_xor, Nat.testBit_two_pow_sub_one, testBit_wrap]
  simp [Nat.not_lt.mpr hi]

theorem testBit_high_of_lt {x : Nat} (hx : x < UINT32) {i : Nat} (hi : 32 ≤ i) :
    x.testBit i = false := by
  have h : UINT32 = 2 ^ 32 := by decide
  exact Nat.testBit_lt_two_pow (lt_of_lt_of_le (h ▸ hx) (Nat.pow_le_pow_right (by omega) hi))

/-- Bits of the inserted value stay inside the bits of the (shifted) mask,
whenever the value is covered by the mask. -/
theorem testBit_value_le_mask {value mask : Nat} (hv : value &&& mask = value)
    (pos i : Nat) (hm : (wrap (mask <<< pos)).testBit i = false) :
    (wrap (value <<< pos)).testBit i = false := by
  rw [testBit_wrap] at hm ⊢
  rcases Nat.lt_or_ge i 32 with h32 | h32
  · simp only [decide_eq_true h32, Bool.true_and] at hm ⊢
    rw [Nat.testBit_shiftLeft] at hm ⊢
    rcases Nat.lt_or_ge i pos with hp | hp
    · simp [Nat.not_le.mpr hp]
    · simp only [decide_eq_true hp, Bool.true_and] at hm ⊢
      have := congrArg (fun x => x.testBit (i - pos)) hv
      simp only [Nat.testBit_and] at this
      rw [← this, hm, Bool.and_false]
  · simp [Nat.not_lt.mpr h32]

/-- Frame property of `write_bits`: any bit outside the (wrapped) shifted mask
is unchanged, provided the inserted value is covered by the mask and the prior
register content fits in 32 bits. -/
theorem write_bits_outside_unchanged (s : RegState) (r : Reg)
    (pos value mask : Nat) (hv : value &&& mask = value) (hs : s r < UINT32)
    (i : Nat) (hm : (wrap (mask <<< pos)).testBit i = false) :
    ((register_tools.write_bits s r pos value mask) r).testBit i
      = (s r).testBit i := by
  have hr : (register_tools.write_bits s r pos value mask) r
      = wrap ((s r &&& compl32 (mask <<< pos)) ||| wrap (value <<< pos)) := by
    simp [register_tools.write_bits, register_tools.write_register]
  rw [hr, testBit_wrap]
  rcases Nat.lt_or_ge i 32 with h32 | h32
  · have hmraw : (mask <<< pos).testBit i = false := by
      have := hm
      rw [testBit_wrap, decide_eq_true h32, Bool.true_and] at this
      exact this
    rw [decide_eq_true h32, Bool.true_and, Nat.testBit_or, Nat.testBit_and,
      testBit_compl32 _ _ h32, hmraw, testBit_value_le_mask hv pos i hm]
    simp
  · rw [decide_eq_false (Nat.not_lt.mpr h32)]
    simp [testBit_high_of_lt hs h32]

/-- `get_bit` as a `testBit`. -/
theorem get_bit_eq (s : RegState) (r : Reg) (field : Nat) :
    register_tools.get_bit s r field = if (s r).testBit field then 1 else 0 := by
  rw [register_tools.get_bit, Nat.and_one_is_mod, Nat.shiftRight_eq_div_pow,
    Nat.testBit_to_div_mod]
  rcases Nat.mod_two_eq_zero_or_one (s r / 2 ^ field) with h | h <;> simp [h]

/-- Reading back the field inserted by `write_bits`: for a width-`w` mask, a
value below `2^w`, and a field lying inside the 32-bit word, shifting and
masking recovers exactly the inserted value. -/
theorem extract_write_bits (x v w p : Nat) (hv : v < 2 ^ w) (hpw : p + w ≤ 32) :
    ((wrap ((x &&& compl32 ((2 ^ w - 1) <<< p)) ||| wrap (v <<< p))) >>> p)
        &&& (2 ^ w - 1) = v := by
  apply Nat.eq_of_testBit_eq
  intro i
  rw [Nat.testBit_and, Nat.testBit_shiftRight, Nat.testBit_two_pow_sub_one,
    testBit_wrap]
  rcases Nat.lt_or_ge i w with hiw | hiw
  · have h32 : p + i < 32 := by omega
    rw [decide_eq_true h32, Bool.true_and, Nat.testBit_or, Nat.testBit_and,
      testBit_compl32 _ _ h32, testBit_wrap, decide_eq_true h32, Bool.true_and,
      Nat.testBit_shiftLeft, Nat.testBit_shiftLeft]
    have hple : p ≤ p + i := Nat.le_add_right p i
    rw [decide_eq_true hple, Bool.true_and, Bool.true_and,
      Nat.add_sub_cancel_left, Nat.testBit_two_pow_sub_one, decide_eq_true hiw]
    simp [decide_eq_true hiw]
  · have hvb : v.testBit i = false :=
      Nat.testBit_lt_two_pow (lt_of_lt_of_le hv (Nat.pow_le_pow_right (by omega) hiw))
    simp [hvb, Nat.not_lt.mpr hiw]

theorem iser_get (k : Nat) (hk : k < 5) :
    interrupts.NVIC_ISER_REGISTERS.get? k = some (Reg.ISER k) := by
  interval_cases k <;> rfl

/-- Clearing a bit really zeroes it, as observed through `get_bit`. -/
theorem clear_bit_get_zero (s : RegState) (r : Reg) (f : Nat) (hf : f < 32) :
    register_tools.get_bit (register_tools.clear_bit s r f) r f = 0 := by
  rw [get_bit_eq]
  have happ : (register_tools.clear_bit s r f) r = wrap (s r &&& compl32 (1 <<< f)) := by
    simp [register_tools.clear_bit, register_tools.write_register]
  have h1 : (1 <<< f).testBit f = true := by
    rw [Nat.testBit_shiftLeft]
    simp
  rw [happ, testBit_wrap, decide_eq_true hf, Bool.true_and, Nat.testBit_and,
    testBit_compl32 _ _ hf, h1]
  simp

/-! ## Claim C2 -/

/-- C2, counterexample: `write_bits` does not mask the inserted value, so with
`pos = 0`, `value = 4`, `mask = 3` and prior register value `0` the register
afterwards holds `4`, not `(0 & ~(3<<0)) | ((4 & 3)<<0) = 0`; moreover bit 2,
which lies outside `mask << pos`, flips from `0` to `1`. -/
theorem write_bits_c2_counterexample :
    ¬ ((register_tools.write_bits zeroState Reg.APB1LENR 0 4 3) Reg.APB1LENR
        = ((zeroState Reg.APB1LENR) &&& compl32 (3 <<< 0)) ||| ((4 &&& 3) <<< 0))
      ∧ (wrap (3 <<< 0)).testBit 2 = false
      ∧ ((register_tools.write_bits zeroState Reg.APB1LENR 0 4 3) Reg.APB1LENR).testBit 2
          ≠ (zeroState Reg.APB1LENR).testBit 2 := by
  refine ⟨by decide, by decide, by decide⟩

/-- C2 (amended): after `write_bits(register, pos, value, mask)` the register
holds `(v & ~(mask<<pos)) | ((value & mask)<<pos)` and every bit outside
`mask<<pos` is unchanged, **provided** the inserted value is covered by the
mask (`value & mask = value`); the source inserts `value` unmasked, so without
that proviso bits of `value` outside the mask can disturb other bits. -/
theorem write_bits_masked_update (s : RegState) (r : Reg) (pos value mask : Nat)
    (hv : value &&& mask = value) (hs : s r < UINT32) :
    (register_tools.write_bits s r pos value mask) r
        = ((s r) &&& compl32 (mask <<< pos)) ||| wrap ((value &&& mask) <<< pos)
      ∧ ∀ i, (wrap (mask <<< pos)).testBit i = false →
          ((register_tools.write_bits s r pos value mask) r).testBit i
            = (s r).testBit i := by
  constructor
  · have hr : (register_tools.write_bits s r pos value mask) r
        = wrap ((s r &&& compl32 (mask <<< pos)) ||| wrap (value <<< pos)) := by
      simp [register_tools.write_bits, register_tools.write_register]
    rw [hr, hv]
    have h32 : UINT32 = 2 ^ 32 := by decide
    have hA : (s r &&& compl32 (mask <<< pos)) < 2 ^ 32 :=
      lt_of_le_of_lt (Nat.and_le_left) (h32 ▸ hs)
    have hB : wrap (value <<< pos) < 2 ^ 32 := by
      rw [wrap, h32]; exact Nat.mod_lt _ (by omega)
    rw [wrap, h32, Nat.mod_eq_of_lt (Nat.or_lt_two_pow hA hB)]
  · exact write_bits_outside_unchanged s r pos value mask hv hs

/-- Witness for C2: instantiates the amended theorem at `pos = 4`,
`value = 2`, `mask = 3` on the all-zero register file, and its frame part at
bit 0. -/
theorem write_bits_masked_update_witness :
    (register_tools.write_bits zeroState Reg.APB1LENR 4 2 3) Reg.APB1LENR
        = ((zeroState Reg.APB1LENR) &&& compl32 (3 <<< 4)) ||| wrap ((2 &&& 3) <<< 4)
      ∧ ((register_tools.write_bits zeroState Reg.APB1LENR 4 2 3) Reg.APB1LENR).testBit 0
          = (zeroState Reg.APB1LENR).testBit 0 :=
  ⟨(write_bits_masked_update zeroState Reg.APB1LENR 4 2 3 (by decide) (by decide)).1,
   (write_bits_masked_update zeroState Reg.APB1LENR 4 2 3 (by decide) (by decide)).2
      0 (by decide)⟩

/-! ## Claim C3 -/

/-- C3: evaluation at the failing input `set_irq_level(5, Level3)`.  The code
computes bit offset `(5 % 4) * 4 = 4` — not byte offset `(5 % 4) * 8` — so on
an all-zero priority register 1 it leaves `0x300` (i.e. `0x30` at bit 4), not
`0x3000` (`0x30` in byte 1); and on an all-ones register it clears the upper
nibble of byte 0 (byte 0 reads back `0x0F`, no longer `0xFF`) while byte 1
reads back `0xF3`, not the claimed `0x30`. -/
theorem set_irq_level_bug_eval :
    (interrupts.set_irq_level 5 interrupts.IRQLevel.Level3 zeroState).map
        (fun s => s (Reg.IPR 1)) = some 0x300
      ∧ (0x300 : Nat) ≠ 0x3000
      ∧ (interrupts.set_irq_level 5 interrupts.IRQLevel.Level3 allOnesState).map
        (fun s => s (Reg.IPR 1) &&& 0xFF) = some 0x0F
      ∧ (interrupts.set_irq_level 5 interrupts.IRQLevel.Level3 allOnesState).map
        (fun s => (s (Reg.IPR 1) >>> 8) &&& 0xFF) = some 0xF3 := by
  refine ⟨by decide, by decide, by decide, by decide⟩

/-! ## Claim C8 -/

/-- C8, counterexample: with the enable bit of line 0 already set before the
pair of calls, `enable_interrupt(0)` then `disable_interrupt(0)` leaves the
bit cleared (`0`), not restored to its prior value `1`. -/
theorem enable_disable_c8_counterexample :
    ((interrupts.enable_interrupt 0 iserOneState).bind
        (fun u => interrupts.disable_interrupt 0 u)).map
        (fun t => register_tools.get_bit t (Reg.ISER 0) 0) = some 0
      ∧ register_tools.get_bit iserOneState (Reg.ISER 0) 0 = 1 := by
  refine ⟨by decide, by decide⟩

/-- C8 (amended): for every interrupt ID `id < 160` (5 enable registers of 32
lines each; larger IDs trip the array-bounds assertion) and every prior state,
enabling then disabling line `id` always leaves its enable bit cleared; this
restores the prior value exactly when the bit was clear before the pair of
calls. -/
theorem enable_then_disable_bit (s : RegState) (id : Nat) (h : id < 160) :
    ((interrupts.enable_interrupt id s).bind
        (fun u => interrupts.disable_interrupt id u)).map
        (fun t => register_tools.get_bit t (Reg.ISER (id / 32)) (id % 32))
      = some 0
      ∧ (register_tools.get_bit s (Reg.ISER (id / 32)) (id % 32) = 0 →
          ((interrupts.enable_interrupt id s).bind
            (fun u => interrupts.disable_interrupt id u)).map
            (fun t => register_tools.get_bit t (Reg.ISER (id / 32)) (id % 32))
          = some (register_tools.get_bit s (Reg.ISER (id / 32)) (id % 32))) := by
  have hk : id / 32 < 5 := by omega
  have hf : id % 32 < 32 := Nat.mod_lt _ (by omega)
  have hred : ((interrupts.enable_interrupt id s).bind
      (fun u => interrupts.disable_interrupt id u)).map
      (fun t => register_tools.get_bit t (Reg.ISER (id / 32)) (id % 32))
      = some (register_tools.get_bit
          (register_tools.clear_bit
            (register_tools.set_bit s (Reg.ISER (id / 32)) (id % 32))
            (Reg.ISER (id / 32)) (id % 32))
          (Reg.ISER (id / 32)) (id % 32)) := by
    simp only [interrupts.enable_interrupt, interrupts.disable_interrupt,
      register_tools.enable_interrupt, register_tools.disable_interrupt,
      register_tools.set_bit_in_array, register_tools.clear_bit_in_array,
      iser_get _ hk, Option.some_bind, Option.map_some']
  constructor
  · rw [hred, clear_bit_get_zero _ _ _ hf]
  · intro h0
    rw [hred, clear_bit_get_zero _ _ _ hf, h0]

/-- Witness for C8: the amended theorem at `id = 3` on the all-zero register
file. -/
theorem enable_then_disable_bit_witness :
    ((interrupts.enable_interrupt 3 zeroState).bind
        (fun u => interrupts.disable_interrupt 3 u)).map
        (fun t => register_tools.get_bit t (Reg.ISER (3 / 32)) (3 % 32))
      = some 0
      ∧ (register_tools.get_bit zeroState (Reg.ISER (3 / 32)) (3 % 32) = 0 →
          ((interrupts.enable_interrupt 3 zeroState).bind
            (fun u => interrupts.disable_interrupt 3 u)).map
            (fun t => register_tools.get_bit t (Reg.ISER (3 / 32)) (3 % 32))
          = some (register_tools.get_bit zeroState (Reg.ISER (3 / 32)) (3 % 32))) :=
  enable_then_disable_bit zeroState 3 (by decide)

/-! ## Claim C7 -/

/-- C7: a zero clock frequency is rejected with `InvalidClockSpeed` and a
zero interval (with nonzero clock) with `InvalidInterval`; in both cases the
function returns the register file exactly as it received it — validation
happens before any register write. -/
theorem setup_cyclical_timer_rejects (t : Timer) (clock interval : Nat)
    (s : RegState) :
    timers.setup_cyclical_timer t 0 interval s
        = some (Except.error (TimerError.InvalidClockSpeed 0), s)
      ∧ (clock ≠ 0 →
          timers.setup_cyclical_timer t clock 0 s
            = some (Except.error (TimerError.InvalidInterval 0), s)) := by
  constructor
  · rfl
  · intro hc
    unfold timers.setup_cyclical_timer
    rw [if_neg hc]
    rfl

/-- Witness for C7: timer 2 at `clock = 0, interval = 7` and at
`clock = 1, interval = 0` on the all-zero register file. -/
theorem setup_cyclical_timer_rejects_witness :
    timers.setup_cyclical_timer Timer.Tim2 0 7 zeroState
        = some (Except.error (TimerError.InvalidClockSpeed 0), zeroState)
      ∧ timers.setup_cyclical_timer Timer.Tim2 1 0 zeroState
        = some (Except.error (TimerError.InvalidInterval 0), zeroState) :=
  ⟨(setup_cyclical_timer_rejects Timer.Tim2 1 7 zeroState).1,
   (setup_cyclical_timer_rejects Timer.Tim2 1 7 zeroState).2 (by decide)⟩

/-! ## Claim C1 -/

/-- C1: for positive clock and interval (the interval a `u16`), every
`setup_cyclical_timerN` returns `Ok` and the final register file holds the
prescaler `clock/1_000_000 - 1` (computed in `u32` arithmetic, i.e. as
`wrap (clock/1_000_000 + 2^32 - 1)`; for `clock ≥ 1_000_000` this is exactly
the mathematical `clock/1_000_000 - 1`) in the timer's prescaler register and
`interval*1000 - 1` in its auto-reload register — no later write of the
sequence disturbs either. -/
theorem setup_cyclical_timer_programs (t : Timer) (clock interval : Nat)
    (s : RegState) (hc : 0 < clock) (hc32 : clock < UINT32)
    (hi : 0 < interval) (hi16 : interval < 65536) :
    (timers.setup_cyclical_timer t clock interval s).map Prod.fst
        = some (Except.ok ())
      ∧ (timers.setup_cyclical_timer t clock interval s).map
          (fun p => p.2 (Reg.PSC t))
        = some (wrap (clock / 1000000 + (UINT32 - 1)))
      ∧ (1000000 ≤ clock →
          (timers.setup_cyclical_timer t clock interval s).map
            (fun p => p.2 (Reg.PSC t)) = some (clock / 1000000 - 1))
      ∧ (timers.setup_cyclical_timer t clock interval s).map
          (fun p => p.2 (Reg.ARR t)) = some (interval * 1000 - 1) := by
  have hc0 : ¬ clock = 0 := by omega
  have hi0 : ¬ interval = 0 := by omega
  have hwrap : wrap (wrap (clock / 1000000 + (UINT32 - 1)))
      = wrap (clock / 1000000 + (UINT32 - 1)) := by
    simp only [wrap, UINT32]
    omega
  have harr : wrap (interval * 1000 - 1) = interval * 1000 - 1 := by
    simp only [wrap, UINT32]
    omega
  have hexact : 1000000 ≤ clock →
      wrap (clock / 1000000 + (UINT32 - 1)) = clock / 1000000 - 1 := by
    intro hge
    have h1 : 1 ≤ clock / 1000000 := Nat.one_le_div_iff (by omega) |>.mpr hge
    have h2 : clock / 1000000 < UINT32 := by
      have := Nat.div_le_self clock 1000000
      omega
    simp only [wrap, UINT32] at h2 ⊢
    omega
  refine ⟨?_, ?_, fun hge => ?_, ?_⟩
  case _ =>
    cases t <;>
      simp [timers.setup_cyclical_timer, hc0, hi0,
        timers.get_cr1_control_register, timers.get_dier_interrupt_register,
        timers.get_egr_event_generator_register, timers.get_nvic_interrupt_id,
        registers.TIM2_IRQ, registers.TIM3_IRQ, registers.TIM4_IRQ,
        registers.TIM5_IRQ, interrupts.enable_interrupt,
        register_tools.enable_interrupt, register_tools.set_bit_in_array,
        interrupts.NVIC_ISER_REGISTERS, register_tools.set_bit,
        register_tools.write_register]
  case _ =>
    cases t <;>
      simp [timers.setup_cyclical_timer, hc0, hi0,
        timers.get_cr1_control_register, timers.get_dier_interrupt_register,
        timers.get_egr_event_generator_register, timers.get_nvic_interrupt_id,
        registers.TIM2_IRQ, registers.TIM3_IRQ, registers.TIM4_IRQ,
        registers.TIM5_IRQ, interrupts.enable_interrupt,
        register_tools.enable_interrupt, register_tools.set_bit_in_array,
        interrupts.NVIC_ISER_REGISTERS, register_tools.set_bit,
        register_tools.write_register, hwrap]
  case _ =>
    rw [← hexact hge]
    cases t <;>
      simp [timers.setup_cyclical_timer, hc0, hi0,
        timers.get_cr1_control_register, timers.get_dier_interrupt_register,
        timers.get_egr_event_generator_register, timers.get_nvic_interrupt_id,
        registers.TIM2_IRQ, registers.TIM3_IRQ, registers.TIM4_IRQ,
        registers.TIM5_IRQ, interrupts.enable_interrupt,
        register_tools.enable_interrupt, register_tools.set_bit_in_array,
        interrupts.NVIC_ISER_REGISTERS, register_tools.set_bit,
        register_tools.write_register, hwrap]
  case _ =>
    cases t <;>
      simp [timers.setup_cyclical_timer, hc0, hi0,
        timers.get_cr1_control_register, timers.get_dier_interrupt_register,
        timers.get_egr_event_generator_register, timers.get_nvic_interrupt_id,
        registers.TIM2_IRQ, registers.TIM3_IRQ, registers.TIM4_IRQ,
        registers.TIM5_IRQ, interrupts.enable_interrupt,
        register_tools.enable_interrupt, register_tools.set_bit_in_array,
        interrupts.NVIC_ISER_REGISTERS, register_tools.set_bit,
        register_tools.write_register, harr]

/-- Witness for C1: timer 2 at 480 MHz with a 100 ms interval on the all-zero
register file: the call succeeds, the prescaler register reads 479 and the
auto-reload register 99999. -/
theorem setup_cyclical_timer_programs_witness :
    (timers.setup_cyclical_timer Timer.Tim2 480000000 100 zeroState).map Prod.fst
        = some (Except.ok ())
      ∧ (timers.setup_cyclical_timer Timer.Tim2 480000000 100 zeroState).map
          (fun p => p.2 (Reg.PSC Timer.Tim2)) = some (480000000 / 1000000 - 1)
      ∧ (timers.setup_cyclical_timer Timer.Tim2 480000000 100 zeroState).map
          (fun p => p.2 (Reg.ARR Timer.Tim2)) = some (100 * 1000 - 1) :=
  ⟨(setup_cyclical_timer_programs Timer.Tim2 480000000 100 zeroState
      (by decide) (by decide) (by decide) (by decide)).1,
   (setup_cyclical_timer_programs Timer.Tim2 480000000 100 zeroState
      (by decide) (by decide) (by decide) (by decide)).2.2.1 (by decide),
   (setup_cyclical_timer_programs Timer.Tim2 480000000 100 zeroState
      (by decide) (by decide) (by decide) (by decide)).2.2.2⟩

/-! ## Claim C6 -/

/-- C6: evaluation at the failing input (counter register of timer 2 holding
5).  `get_timer2_now_us` returns `5 * 1000 = 5000` — the source multiplies
the counter by 1000 inside `get_now_us` (its own comment says "Convert µs →
ns") — not the claimed counter value 5; consequently `get_timer2_now_ns`
returns `5_000_000`, not the claimed `5 * 1000`. -/
theorem get_now_scaling_bug_eval :
    timers.get_timer2_now_us cnt5State = 5000
      ∧ timers.get_timer2_now_ns cnt5State = 5000000
      ∧ timers.get_timer2_now_us cnt5State ≠ cnt5State (Reg.CNT Timer.Tim2)
      ∧ timers.get_timer2_now_ns cnt5State
          ≠ cnt5State (Reg.CNT Timer.Tim2) * 1000 := by
  refine ⟨by decide, by decide, by decide, by decide⟩

/-! ## Claim C5 -/

/-- C5: evaluation at the failing input (pin 2, pull-up, all-zero registers).
`Gpio::setup` writes the 2-bit pull value at bit position `pin` — the source
passes `self.pin as u8`, not `self.pin as u8 * 2`, to `write_bits` — so the
pull register afterwards holds `0b10 << 2 = 8`, not the claimed
`0b10 << (2*2) = 32`. -/
theorem gpio_setup_pull_bug_eval :
    (pullUpP2.setup zeroState) (Reg.PUPDR GpioRegister.GpioA) = 8
      ∧ (8 : Nat) ≠ 2 <<< (2 * 2)
      ∧ (pullUpP2.setup zeroState) (Reg.PUPDR GpioRegister.GpioA) ≠ 32 := by
  refine ⟨by decide, by decide, by decide⟩

/-! ## Claim C9 -/

/-- C9: `setup_usart` builds its TX and RX descriptors with
`speed = HighSpeed`, but `Gpio::setup` never consults the descriptor's speed
field and never writes any slew-rate (speed) register: for every port, every
clock/baud and every prior state, every `OSPEEDR` register is exactly as
before the call — the high-slew configuration never reaches the hardware. -/
theorem setup_usart_speed_untouched (u : USART) (clock baud : Nat)
    (s : RegState) (p : GpioRegister) :
    (usart.usart_tx_gpio u).speed = GpioSpeed.HighSpeed
      ∧ (usart.usart_rx_gpio u).speed = GpioSpeed.HighSpeed
      ∧ (usart.setup_usart clock baud u s) (Reg.OSPEEDR p) = s (Reg.OSPEEDR p) := by
  refine ⟨?_, ?_, ?_⟩
  · cases u <;> rfl
  · cases u <;> rfl
  · cases u <;>
      simp [usart.setup_usart, usart.usart_tx_gpio, usart.usart_rx_gpio,
        usart.get_cr_usart_control_register,
        usart.get_apb1lenr_usart_clock_enable_field, Gpio.setup, Gpio.new,
        ahb4enr_gpio_field, register_tools.set_bit, register_tools.clear_bit,
        register_tools.write_bits, register_tools.write_register,
        GpioPin.toNat, GpioMode.toNat, GpioPull.toNat, GpioAlternate.toNat]

/-! ## Claim C10 -/

/-- C10: `write_usart_character` with the port not ready (transmit-enable and
port-enable not both reading back set) changes nothing and writes no
register; with the port ready and the transmit-empty status bit set, it
writes the character's code point into the data register. -/
theorem write_usart_character_spec (u : USART) (c : Char) (s : RegState) :
    (usart.is_usart_setup u s = false →
        usart.write_usart_character c u s = some s)
      ∧ (usart.is_usart_setup u s = true →
          register_tools.get_bit s (Reg.ISR u) registers.TXE = 1 →
          usart.write_usart_character c u s
            = some (register_tools.write_register s (Reg.TDR u) c.toNat)) := by
  constructor
  · intro hns
    simp [usart.write_usart_character, hns]
  · intro hr htxe
    simp [usart.write_usart_character, hr, htxe]

/-- Witness for C10: on the all-zero register file USART2 is not ready and
`write_usart_character` returns the state unchanged; on `usartReadyState`
(control bits `TE`,`UE` and status bit `TXE` set) it writes the code point of
`A` into USART2's data register. -/
theorem write_usart_character_spec_witness :
    usart.write_usart_character 'A' USART.USART2 zeroState = some zeroState
      ∧ usart.write_usart_character 'A' USART.USART2 usartReadyState
        = some (register_tools.write_register usartReadyState
            (Reg.TDR USART.USART2) (Char.toNat 'A')) :=
  ⟨(write_usart_character_spec USART.USART2 'A' zeroState).1 (by decide),
   (write_usart_character_spec USART.USART2 'A' usartReadyState).2
      (by decide) (by decide)⟩

/-! ## Claim C4 -/

theorem wrap_lt (n : Nat) : wrap n < UINT32 :=
  Nat.mod_lt _ (by decide)

/-- Reading back the low (fraction) sub-field after the second `write_bits`
(`pos = 0`, mask `0xf`). -/
theorem brr_low_write_extract (x f : Nat) (hf : f < 16) :
    wrap ((x &&& compl32 15) ||| wrap f) &&& 15 = f := by
  have h0 : (16 : Nat) = 2 ^ 4 := by decide
  have h2 : ((2 : Nat) ^ 4 - 1) <<< 0 = 15 := by decide
  have h1 : ((2 : Nat) ^ 4 - 1) = 15 := by decide
  have h3 : f <<< 0 = f := Nat.shiftLeft_zero
  have h := extract_write_bits x f 4 0 (h0 ▸ hf) (by omega)
  rw [Nat.shiftRight_zero, h2, h3, h1] at h
  exact h

/-- Reading back the high (mantissa) sub-field after the first `write_bits`
(`pos = 4`, mask `0xfff`; `65520 = 0xfff << 4`). -/
theorem brr_high_write_extract (x m : Nat) (hm : m < 4096) :
    (wrap ((x &&& compl32 65520) ||| wrap (m <<< 4)) >>> 4) &&& 4095 = m := by
  have h0 : (4096 : Nat) = 2 ^ 12 := by decide
  have h1 : ((2 : Nat) ^ 12 - 1) = 4095 := by decide
  have h2 : ((2 : Nat) ^ 12 - 1) <<< 4 = 65520 := by decide
  have h := extract_write_bits x m 12 4 (h0 ▸ hm) (by omega)
  rw [h2, h1] at h
  exact h

/-- The second `write_bits` (low nibble) leaves bits 4..15 — the mantissa
sub-field — unchanged. -/
theorem brr_low_write_keeps_high (x f : Nat) (hx : x < UINT32) (hf : f < 16) :
    (wrap ((x &&& compl32 15) ||| wrap f) >>> 4) &&& 4095 = (x >>> 4) &&& 4095 := by
  have h16 : (16 : Nat) = 2 ^ 4 := by decide
  apply Nat.eq_of_testBit_eq
  intro i
  rw [Nat.testBit_and, Nat.testBit_and, Nat.testBit_shiftRight,
    Nat.testBit_shiftRight]
  rcases Nat.lt_or_ge (4 + i) 32 with h32 | h32
  · have hf15 : (15 : Nat).testBit (4 + i) = false :=
      Nat.testBit_lt_two_pow (lt_of_lt_of_le (by decide : (15 : Nat) < 2 ^ 4)
        (Nat.pow_le_pow_right (by omega) (by omega)))
    have hfb : f.testBit (4 + i) = false :=
      Nat.testBit_lt_two_pow (lt_of_lt_of_le (h16 ▸ hf)
        (Nat.pow_le_pow_right (by omega) (by omega)))
    rw [testBit_wrap, decide_eq_true h32, Bool.true_and, Nat.testBit_or,
      Nat.testBit_and, testBit_compl32 _ _ h32, testBit_wrap,
      decide_eq_true h32, Bool.true_and, hf15, hfb]
    simp
  · have hxb : x.testBit (4 + i) = false := testBit_high_of_lt hx h32
    have hwb : (wrap ((x &&& compl32 15) ||| wrap f)).testBit (4 + i) = false := by
      rw [testBit_wrap, decide_eq_false (Nat.not_lt.mpr h32)]
      simp
    rw [hxb, hwb]

/-- A zero divisor is reachable and modelled faithfully: at `baud_rate = 0`
(and likewise at `baud_rate = 2^28`, where `baud << 4` wraps to 0) the `f32`
division yields `+∞`, both saturating `as u32` casts yield `u32::MAX`, and
the two unmasked `write_bits` calls leave the whole baud register at
all-ones — low nibble `0xF` and high sub-field `0xFFF`, not 0/0. -/
theorem usart_brr_div_by_zero_eval :
    usart.usart_brr_mantissa 16000000 0 = 4294967295
      ∧ usart.usart_brr_fraction 16000000 0 = 4294967295
      ∧ usart.usart_brr_mantissa 16000000 268435456 = 4294967295
      ∧ (usart.setup_usart 16000000 0 USART.USART2 zeroState)
          (Reg.BRR USART.USART2) = 4294967295 := by
  refine ⟨by decide, by decide, by decide, by decide⟩

/-- C4, counterexample: at `clock_hz = 16_000_000`, `baud = 115_200` the code
computes `usartdiv ≈ 8.6805` in `f32` and then **truncates**
`(usartdiv - 8) * 16 = 10.888…` with an `as u32` cast, producing fraction 10,
so after `setup_usart` the baud register's low sub-field holds 10 — not the
claimed `round(0.6805 * 16) = 11`. -/
theorem usart_brr_round_counterexample :
    usart.usart_brr_mantissa 16000000 115200 = 8
      ∧ usart.usart_brr_fraction 16000000 115200 = 10
      ∧ ((usart.setup_usart 16000000 115200 USART.USART2 zeroState)
          (Reg.BRR USART.USART2)) &&& 15 ≠ 11 := by
  refine ⟨by decide, by decide, by decide⟩

/-- C4 (amended): `setup_usart` computes `usartdiv = clock/(baud*16)` in
`f32`, `mantissa = trunc(usartdiv)` and
`fraction = trunc((usartdiv - mantissa) * 16)` — truncation, not rounding —
and writes them into the baud register's high (bits 4..15) and low (bits
0..3) sub-fields respectively, where they can be read back whenever they fit
their sub-fields; at 16 MHz / 115200 this yields mantissa 8 and fraction 10
(not 11). -/
theorem setup_usart_brr_fields (u : USART) (clock baud : Nat) (s : RegState)
    (hm : usart.usart_brr_mantissa clock baud < 4096)
    (hf : usart.usart_brr_fraction clock baud < 16) :
    ((usart.setup_usart clock baud u s) (Reg.BRR u)) &&& 15
        = usart.usart_brr_fraction clock baud
      ∧ (((usart.setup_usart clock baud u s) (Reg.BRR u)) >>> 4) &&& 4095
        = usart.usart_brr_mantissa clock baud := by
  have happ : (usart.setup_usart clock baud u s) (Reg.BRR u)
      = wrap ((wrap ((s (Reg.BRR u) &&& compl32 65520)
            ||| wrap ((usart.usart_brr_mantissa clock baud) <<< 4))
          &&& compl32 15)
        ||| wrap (usart.usart_brr_fraction clock baud)) := by
    cases u <;>
      simp [usart.setup_usart, usart.usart_tx_gpio, usart.usart_rx_gpio,
        usart.get_cr_usart_control_register,
        usart.get_apb1lenr_usart_clock_enable_field, Gpio.setup, Gpio.new,
        ahb4enr_gpio_field, register_tools.set_bit, register_tools.clear_bit,
        register_tools.write_bits, register_tools.write_register,
        registers.BRR_4_15, registers.BRR_0_3,
        GpioPin.toNat, GpioMode.toNat, GpioPull.toNat, GpioAlternate.toNat]
  rw [happ]
  constructor
  · exact brr_low_write_extract _ _ hf
  · rw [brr_low_write_keeps_high _ _ (wrap_lt _) hf]
    exact brr_high_write_extract _ _ hm

/-- Witness for C4: the amended theorem at 16 MHz / 115200 baud on USART2
over the all-zero register file. -/
theorem setup_usart_brr_fields_witness :
    ((usart.setup_usart 16000000 115200 USART.USART2 zeroState)
          (Reg.BRR USART.USART2)) &&& 15
        = usart.usart_brr_fraction 16000000 115200
      ∧ (((usart.setup_usart 16000000 115200 USART.USART2 zeroState)
          (Reg.BRR USART.USART2)) >>> 4) &&& 4095
        = usart.usart_brr_mantissa 16000000 115200 :=
  setup_usart_brr_fields USART.USART2 16000000 115200 zeroState
    (by decide) (by decide)
